import Mathlib

/-!
Verification of the note-storage core of `notatki_app.py` (audio-notes app).

The app stores notes in a Qdrant vector collection.  We shallowly embed the
relevant functions:

* `assure_db_collection_exists` — collection bootstrap,
* `get_embedding` — embedding request (external provider passed as a function),
* `add_note_to_db` — upsert a note point with id = exact point count + 1,
* `list_notes_from_db` — list (scroll, limit 10) or semantic search (limit 10),
* `transcribe_audio` — transcription call (external provider passed as a
  function, fallible results modelled with `Except`),
* the save-note button handler's truthiness guard at module top level.

The Qdrant client is external; we model its store as an explicit state
(`QdrantStore`) and its documented operation semantics: `count` (exact),
`upsert` (insert-or-replace by id), `scroll` (first `limit` points), `search`
(all points scored by a similarity function, ordered by descending score, top
`limit` returned), `collection_exists` / `create_collection`.  The app only
ever touches the single collection `QDRANT_COLLECTION_NAME`, so the model
tracks that collection's points directly; the `collection_name` arguments of
the operations mirror the call shape of the source.  Embedding vectors are
lists of rationals (the numeric field values; float rounding is irrelevant to
every property proved here, which only compares and orders scores).
-/

/-- `EMBEDDING_DIM = 3072` from the source configuration block. -/
def EMBEDDING_DIM : Nat := 3072

/-- `QDRANT_COLLECTION_NAME = "notes"` from the source configuration block. -/
def QDRANT_COLLECTION_NAME : String := "notes"

/-- A payload value: the app stores strings (the payload written by
`add_note_to_db` is the dict with single key "text" holding the note text);
integer values are included so that a claim about an integer `created_at`
payload key is statable. -/
inductive PayloadValue where
  | str (s : String)
  | int (i : Int)
deriving DecidableEq, Repr

/-- Qdrant `PointStruct`: id, vector, payload (a string-keyed mapping,
modelled as an association list). -/
structure PointStruct where
  id : Nat
  vector : List ℚ
  payload : List (String × PayloadValue)
deriving DecidableEq, Repr

/-- Qdrant `Distance` metric enumeration (the app uses `COSINE`). -/
inductive Distance where
  | cosine
  | dot
  | euclid
deriving DecidableEq, Repr

/-- Qdrant `VectorParams`: vector size and distance metric. -/
structure VectorParams where
  size : Nat
  distance : Distance
deriving DecidableEq, Repr

/-- A collection registered in the store: its name and vector configuration. -/
structure Collection where
  name : String
  vectorParams : VectorParams
deriving DecidableEq, Repr

/-- The state of the Qdrant store as the app uses it: the registered
collections, and the points of the single collection
`QDRANT_COLLECTION_NAME` that every operation in the source addresses. -/
structure QdrantStore where
  collections : List Collection
  points : List PointStruct
deriving DecidableEq, Repr

/-- A fresh store: no collections, no points. -/
def initialStore : QdrantStore := { collections := [], points := [] }

/-- Qdrant `collection_exists(name)`. -/
def collection_exists (s : QdrantStore) (name : String) : Bool :=
  s.collections.any (fun c => c.name = name)

/-- Qdrant `create_collection(collection_name, vectors_config)`. -/
def create_collection (s : QdrantStore) (name : String) (cfg : VectorParams) :
    QdrantStore :=
  { s with collections := s.collections ++ [{ name := name, vectorParams := cfg }] }

/-- Qdrant `count(collection_name, exact=True)`: the exact number of points. -/
def qdrantCount (s : QdrantStore) (_name : String) : Nat :=
  s.points.length

/-- Insert-or-replace one point by id (Qdrant upsert semantics for a single
point): if a point with the same id exists it is replaced in place, otherwise
the point is appended. -/
def upsertPoint (pts : List PointStruct) (p : PointStruct) : List PointStruct :=
  if pts.any (fun q => q.id = p.id) then
    pts.map (fun q => if q.id = p.id then p else q)
  else
    pts ++ [p]

/-- Qdrant `upsert(collection_name, points)`. -/
def qdrantUpsert (s : QdrantStore) (_name : String) (ps : List PointStruct) :
    QdrantStore :=
  { s with points := ps.foldl upsertPoint s.points }

/-- Qdrant `scroll(collection_name, limit)[0]`: the first `limit` stored
points. -/
def qdrantScroll (s : QdrantStore) (_name : String) (limit : Nat) :
    List PointStruct :=
  s.points.take limit

/-- A search hit: a stored point together with its similarity score. -/
structure ScoredHit where
  point : PointStruct
  score : ℚ
deriving DecidableEq, Repr

/-- Descending-score order on search hits. -/
def scoreGE (a b : ScoredHit) : Prop := b.score ≤ a.score

instance : DecidableRel scoreGE :=
  fun a b => inferInstanceAs (Decidable (b.score ≤ a.score))

instance : IsTotal ScoredHit scoreGE :=
  ⟨fun a b => le_total b.score a.score⟩

instance : IsTrans ScoredHit scoreGE :=
  ⟨fun _ _ _ h1 h2 => le_trans h2 h1⟩

/-- Qdrant `search(collection_name, query_vector, limit)`: every stored point
is scored against the query vector by the store's similarity function `sim`
(cosine similarity in the app's configuration; kept abstract since only the
ordering matters here), and the `limit` best hits are returned in descending
score order — the store's documented native ordering. -/
def qdrantSearch (sim : List ℚ → List ℚ → ℚ) (s : QdrantStore) (_name : String)
    (query_vector : List ℚ) (limit : Nat) : List ScoredHit :=
  (List.insertionSort scoreGE
    (s.points.map (fun p => { point := p, score := sim query_vector p.vector }))).take limit

/-- `assure_db_collection_exists()`: if the collection named
`QDRANT_COLLECTION_NAME` does not exist, create it with
`VectorParams(size=EMBEDDING_DIM, distance=Distance.COSINE)`; otherwise do
nothing (the source only prints a message). -/
def assure_db_collection_exists (s : QdrantStore) : QdrantStore :=
  if ¬ collection_exists s QDRANT_COLLECTION_NAME then
    create_collection s QDRANT_COLLECTION_NAME
      { size := EMBEDDING_DIM, distance := Distance.cosine }
  else
    s

/-- `get_embedding(text)`: calls the external embedding provider with
`dimensions=EMBEDDING_DIM` and returns the resulting vector.  The provider is
the parameter `embed : String → Nat → List ℚ` (text and requested dimension
in, vector out). -/
def get_embedding (embed : String → Nat → List ℚ) (text : String) : List ℚ :=
  embed text EMBEDDING_DIM

/-- `add_note_to_db(note_text)`: reads the exact point count, then upserts a
single point with `id = points_count.count + 1`, `vector = get_embedding
(note_text)` and `payload = {"text": note_text}`. -/
def add_note_to_db (embed : String → Nat → List ℚ) (s : QdrantStore)
    (note_text : String) : QdrantStore :=
  let points_count := qdrantCount s QDRANT_COLLECTION_NAME
  qdrantUpsert s QDRANT_COLLECTION_NAME
    [{ id := points_count + 1,
       vector := get_embedding embed note_text,
       payload := [("text", PayloadValue.str note_text)] }]

/-- The result shape produced by `list_notes_from_db`: a dict with keys
"text" and "score", where "score" is `None` on the list path and the hit's
score on the search path. -/
structure NoteResult where
  text : String
  score : Option ℚ
deriving DecidableEq, Repr

/-- External calls made during one `list_notes_from_db` invocation, recorded
so that "no embedding is computed / no similarity search is issued" is
statable. -/
structure EffectLog where
  embedCalls : Nat
  searchCalls : Nat
deriving DecidableEq, Repr

/-- Python truthiness of the `query` argument (`if not query:`): `None` and
the empty string are falsy; every other string is truthy. -/
def pyTruthy : Option String → Bool
  | none => false
  | some t => !(t == "")

/-- `note.payload["text"] if note.payload and "text" in note.payload else ""`:
the payload's "text" value, or "" when the payload is empty or lacks the key.
Every point this app writes stores a string under "text". -/
def payloadText (payload : List (String × PayloadValue)) : String :=
  match payload.lookup "text" with
  | some (PayloadValue.str t) => t
  | _ => ""

/-- `list_notes_from_db(query=None)`: when `query` is falsy (absent or empty),
scroll the first 10 points and return them with `score = None`; otherwise
embed the query, run the similarity search with `limit = 10`, and return the
hits with their scores.  The second component records the external calls the
branch makes (embedding requests, similarity searches). -/
def list_notes_from_db (sim : List ℚ → List ℚ → ℚ)
    (embed : String → Nat → List ℚ) (s : QdrantStore) (query : Option String) :
    List NoteResult × EffectLog :=
  if pyTruthy query = false then
    let notes := qdrantScroll s QDRANT_COLLECTION_NAME 10
    (notes.map (fun note => { text := payloadText note.payload, score := none }),
     { embedCalls := 0, searchCalls := 0 })
  else
    let notes := qdrantSearch sim s QDRANT_COLLECTION_NAME
      (get_embedding embed (query.getD "")) 10
    (notes.map (fun note =>
       { text := payloadText note.point.payload, score := some note.score }),
     { embedCalls := 1, searchCalls := 1 })

/-- The verbose transcription response; the source consumes only its `text`
field. -/
structure Transcript where
  text : String
deriving DecidableEq, Repr

/-- `transcribe_audio(audio_bytes)`: calls the external transcription service
(parameter `create`, fallible) and returns `transcript.text`.  The source has
no exception handler, so a provider error propagates to the caller
unchanged. -/
def transcribe_audio (create : List Nat → Except String Transcript)
    (audio_bytes : List Nat) : Except String String :=
  match create audio_bytes with
  | Except.ok transcript => Except.ok transcript.text
  | Except.error e => Except.error e

/-- The save-note button handler at module top level:
`if st.session_state["note_text"] and st.button(...)` — the note is saved only
when the session's note text is truthy (non-empty) and the button was
clicked. -/
def save_note_clicked (embed : String → Nat → List ℚ) (s : QdrantStore)
    (note_text : String) (button_clicked : Bool) : QdrantStore :=
  if pyTruthy (some note_text) && button_clicked then
    add_note_to_db embed s note_text
  else
    s

/-- Modelled from the spec: the repository's `delete(id)` operation is absent
from the source file (no delete call appears anywhere in `notatki_app.py`);
per the spec it "removes the point with the given identifier; idempotent
(deleting a nonexistent id is not an error ... treat as success either
way)". -/
def delete_note_from_db (s : QdrantStore) (id : Nat) : QdrantStore :=
  { s with points := s.points.filter (fun p => p.id ≠ id) }

/-- One user-level operation touching the store. -/
inductive Op where
  | add (text : String)
  | assure
  | delete (id : Nat)

/-- Apply one operation to the store. -/
def runOp (embed : String → Nat → List ℚ) (s : QdrantStore) : Op → QdrantStore
  | Op.add text => add_note_to_db embed s text
  | Op.assure => assure_db_collection_exists s
  | Op.delete id => delete_note_from_db s id

/-- Run a sequence of operations from the fresh store. -/
def run (embed : String → Nat → List ℚ) (ops : List Op) : QdrantStore :=
  ops.foldl (runOp embed) initialStore

/-- The number of collections named `name` in the store. -/
def countNamed (cs : List Collection) (name : String) : Nat :=
  (cs.filter (fun c => c.name = name)).length

/-- A concrete embedding provider honouring the provider contract: the result
has exactly the requested dimension. -/
def embed0 : String → Nat → List ℚ := fun _ d => List.replicate d 0

/-- The point produced by adding "hi" to the fresh bootstrapped store. -/
def runPoint0 : PointStruct :=
  { id := 1, vector := get_embedding embed0 "hi",
    payload := [("text", PayloadValue.str "hi")] }

/-- A concrete store used by witnesses: the notes collection exists and holds
two points with distinct short vectors. -/
def storeA : QdrantStore :=
  { collections :=
      [{ name := QDRANT_COLLECTION_NAME,
         vectorParams := { size := EMBEDDING_DIM, distance := Distance.cosine } }],
    points :=
      [{ id := 1, vector := [1, 0], payload := [("text", PayloadValue.str "Buy milk")] },
       { id := 2, vector := [0, 1], payload := [("text", PayloadValue.str "Call mom")] }] }

/-- A concrete similarity function for witnesses (first-component product). -/
def sim0 : List ℚ → List ℚ → ℚ := fun qv v => qv.headD 0 * v.headD 0

/-- A concrete embedding provider for witnesses on `storeA`. -/
def embedA : String → Nat → List ℚ := fun _ _ => [1, 1]

/-! ## Helper lemmas about the store operations -/

theorem mem_upsertPoint (pts : List PointStruct) (p : PointStruct) :
    p ∈ upsertPoint pts p := by
  unfold upsertPoint
  split
  · rename_i h
    obtain ⟨q, hq, hid⟩ := List.any_eq_true.mp h
    refine List.mem_map.mpr ⟨q, hq, ?_⟩
    rw [if_pos (of_decide_eq_true hid)]
  · exact List.mem_append.mpr (Or.inr (List.mem_singleton.mpr rfl))

theorem mem_upsertPoint_elim (pts : List PointStruct) (np p : PointStruct)
    (h : p ∈ upsertPoint pts np) : p ∈ pts ∨ p = np := by
  unfold upsertPoint at h
  by_cases hany : pts.any (fun q => q.id = np.id) = true
  · rw [if_pos hany] at h
    obtain ⟨q, hq, hqe⟩ := List.mem_map.mp h
    by_cases hid : q.id = np.id
    · rw [if_pos hid] at hqe
      exact Or.inr hqe.symm
    · rw [if_neg hid] at hqe
      exact Or.inl (hqe ▸ hq)
  · rw [if_neg hany] at h
    rcases List.mem_append.mp h with hl | hr
    · exact Or.inl hl
    · exact Or.inr (List.mem_singleton.mp hr)

theorem upsertPoint_fresh (pts : List PointStruct) (p : PointStruct)
    (h : ∀ q ∈ pts, q.id ≠ p.id) : upsertPoint pts p = pts ++ [p] := by
  unfold upsertPoint
  rw [if_neg]
  intro hany
  obtain ⟨q, hq, hid⟩ := List.any_eq_true.mp hany
  exact h q hq (of_decide_eq_true hid)

/-! ## Claim C1 — id assignment policy -/

/-- Claim C1 as stated is false: `add_note_to_db` in the source assigns the new
point's id as the exact point count plus one, not as the current wall-clock
time in milliseconds.  Adding "hello" to the fresh bootstrapped store yields a
point with id 1, and 1 is smaller than one day's worth of milliseconds, hence
not a wall-clock epoch-millisecond timestamp.  The function reads no clock at
all. -/
theorem add_note_id_timestamp_counterexample :
    ((add_note_to_db embed0 (assure_db_collection_exists initialStore)
        "hello").points.map PointStruct.id) = [1] ∧ ¬ (86400000 ≤ 1) :=
  ⟨rfl, by decide⟩

/-- Claim C1 (amended): `add_note_to_db` assigns the new note's identifier as
the current exact point count plus one (policy (a) of the spec), for every
non-empty note text; when no stored point already carries that id, the stored
id sequence is extended by exactly that value. -/
theorem add_note_id_is_count_plus_one (embed : String → Nat → List ℚ)
    (s : QdrantStore) (text : String)
    (hfresh : ∀ q ∈ s.points, q.id ≠ qdrantCount s QDRANT_COLLECTION_NAME + 1)
    (h : text ≠ "") :
    ((add_note_to_db embed s text).points.map PointStruct.id) =
      (s.points.map PointStruct.id) ++ [qdrantCount s QDRANT_COLLECTION_NAME + 1] := by
  show ((upsertPoint s.points _).map PointStruct.id) = _
  rw [upsertPoint_fresh s.points _ (fun q hq => hfresh q hq)]
  simp

/-- Witness for C1 at a concrete store holding two points with ids 1 and 2:
the hypotheses hold and the id sequence becomes 1, 2, 3. -/
theorem add_note_id_is_count_plus_one_witness :
    ((add_note_to_db embed0 storeA "hello").points.map PointStruct.id) =
      [1, 2] ++ [3] :=
  add_note_id_is_count_plus_one embed0 storeA "hello" (by decide) (by decide)

/-! ## Claim C2 — payload of the upserted point -/

/-- Claim C2 as stated is false: the payload written by `add_note_to_db` holds
only the key "text"; no point — in particular not the newly upserted one with
id 3 — carries a "created_at" key. -/
theorem add_note_created_at_counterexample :
    ((add_note_to_db embed0 storeA "hello").points.map
        (fun p => (p.id, p.payload.lookup "created_at"))) =
      [(1, none), (2, none), (3, none)] := rfl

/-- Claim C2 (amended): for every note text accepted by add, when no stored
point already carries the assigned id, the point upserted into the collection
is keyed by the assigned id (count + 1) and carries the embedding vector and a
payload containing exactly the key "text" (equal to the input); there is no
"created_at" key. -/
theorem add_note_upserts_text_point (embed : String → Nat → List ℚ)
    (s : QdrantStore) (text : String)
    (hfresh : ∀ q ∈ s.points, q.id ≠ qdrantCount s QDRANT_COLLECTION_NAME + 1)
    (h : text ≠ "") :
    (add_note_to_db embed s text).points =
      s.points ++ [{ id := qdrantCount s QDRANT_COLLECTION_NAME + 1,
                     vector := get_embedding embed text,
                     payload := [("text", PayloadValue.str text)] }] ∧
    ([("text", PayloadValue.str text)] :
        List (String × PayloadValue)).lookup "text" = some (PayloadValue.str text) ∧
    ([("text", PayloadValue.str text)] :
        List (String × PayloadValue)).lookup "created_at" = none := by
  refine ⟨?_, by simp [List.lookup], by simp [List.lookup]⟩
  show upsertPoint s.points _ = _
  rw [upsertPoint_fresh s.points _ (fun q hq => hfresh q hq)]

/-- Witness for C2 at the concrete two-point store. -/
theorem add_note_upserts_text_point_witness :
    (add_note_to_db embed0 storeA "hello").points =
      storeA.points ++ [{ id := 3,
                          vector := get_embedding embed0 "hello",
                          payload := [("text", PayloadValue.str "hello")] }] :=
  (add_note_upserts_text_point embed0 storeA "hello" (by decide) (by decide)).1

/-! ## Claim C3 — empty and blank note text -/

/-- Claim C3 as stated is false for blank (whitespace-only) text: the save
handler's guard is Python truthiness, and " " is truthy, so saving the blank
note " " creates a point (the count goes from 2 to 3). -/
theorem save_blank_note_adds_point_counterexample :
    (save_note_clicked embed0 storeA " " true).points.length = 3 ∧
    storeA.points.length = 2 :=
  ⟨rfl, rfl⟩

/-- Claim C3 (amended): saving an empty note text is a no-op — the save
handler creates no point, leaves the store unchanged, and the count of a
subsequent list-all is unchanged; blank (whitespace-only) text is not
rejected. -/
theorem save_empty_note_noop (sim : List ℚ → List ℚ → ℚ)
    (embed : String → Nat → List ℚ) (s : QdrantStore) (b : Bool) :
    save_note_clicked embed s "" b = s ∧
    (list_notes_from_db sim embed (save_note_clicked embed s "" b) none).1.length =
      (list_notes_from_db sim embed s none).1.length := by
  have hs : save_note_clicked embed s "" b = s := by
    unfold save_note_clicked
    rw [if_neg]
    simp [pyTruthy]
  exact ⟨hs, by rw [hs]⟩

/-! ## Claim C4 — search results: limit, scores, descending order -/

/-- Claim C4 (confirmed): for every non-empty query text,
`list_notes_from_db` with that query returns at most 10 results (the limit
hard-coded in the source), each carrying a numeric score, and the result
sequence is sorted in descending order of score. -/
theorem search_results_limited_scored_sorted (sim : List ℚ → List ℚ → ℚ)
    (embed : String → Nat → List ℚ) (s : QdrantStore) (q : String)
    (h : q ≠ "") :
    (list_notes_from_db sim embed s (some q)).1.length ≤ 10 ∧
    (∀ x ∈ (list_notes_from_db sim embed s (some q)).1, x.score.isSome = true) ∧
    List.Pairwise (fun a b : NoteResult => b.score.getD 0 ≤ a.score.getD 0)
      (list_notes_from_db sim embed s (some q)).1 := by
  have hq : ¬ (pyTruthy (some q) = false) := by simp [pyTruthy, h]
  unfold list_notes_from_db
  rw [if_neg hq]
  dsimp only
  refine ⟨?_, ?_, ?_⟩
  · rw [List.length_map]
    unfold qdrantSearch
    exact List.length_take_le 10 _
  · intro x hx
    obtain ⟨hit, _, hxe⟩ := List.mem_map.mp hx
    rw [← hxe]
    rfl
  · rw [List.pairwise_map]
    have hsorted : List.Pairwise scoreGE
        (qdrantSearch sim s QDRANT_COLLECTION_NAME
          (get_embedding embed ((some q).getD "")) 10) := by
      unfold qdrantSearch
      exact List.Pairwise.sublist (List.take_sublist 10 _)
        (List.sorted_insertionSort scoreGE _)
    exact hsorted.imp (fun hab => hab)

/-- Witness for C4 at a concrete store, similarity function and query. -/
theorem search_results_limited_scored_sorted_witness :
    (list_notes_from_db sim0 embedA storeA (some "milk")).1.length ≤ 10 ∧
    List.Pairwise (fun a b : NoteResult => b.score.getD 0 ≤ a.score.getD 0)
      (list_notes_from_db sim0 embedA storeA (some "milk")).1 :=
  ⟨(search_results_limited_scored_sorted sim0 embedA storeA "milk" (by decide)).1,
   (search_results_limited_scored_sorted sim0 embedA storeA "milk" (by decide)).2.2⟩

/-! ## Claim C5 — collection bootstrap idempotence -/

/-- Claim C5 (confirmed): `assure_db_collection_exists` is idempotent — when
the collection already exists it changes nothing; running it twice equals
running it once; and from a store with no collection of the configured name,
two runs leave exactly one collection of that name, configured with vector
size `EMBEDDING_DIM` and the cosine metric. -/
theorem assure_collection_idempotent (s : QdrantStore) :
    (collection_exists s QDRANT_COLLECTION_NAME = true →
      assure_db_collection_exists s = s) ∧
    assure_db_collection_exists (assure_db_collection_exists s) =
      assure_db_collection_exists s ∧
    (countNamed s.collections QDRANT_COLLECTION_NAME = 0 →
      countNamed (assure_db_collection_exists
          (assure_db_collection_exists s)).collections QDRANT_COLLECTION_NAME = 1 ∧
      ∀ c ∈ (assure_db_collection_exists
          (assure_db_collection_exists s)).collections,
        c.name = QDRANT_COLLECTION_NAME →
          c.vectorParams = { size := EMBEDDING_DIM, distance := Distance.cosine }) := by
  have hskip : ∀ t : QdrantStore,
      collection_exists t QDRANT_COLLECTION_NAME = true →
      assure_db_collection_exists t = t := by
    intro t ht
    unfold assure_db_collection_exists
    rw [if_neg]
    simp [ht]
  have hcreate_exists : ∀ t : QdrantStore,
      collection_exists (assure_db_collection_exists t)
        QDRANT_COLLECTION_NAME = true := by
    intro t
    unfold assure_db_collection_exists
    by_cases ht : collection_exists t QDRANT_COLLECTION_NAME = true
    · rw [if_neg (by simp [ht])]
      exact ht
    · rw [if_pos (by simpa using ht)]
      unfold collection_exists create_collection
      simp
  refine ⟨hskip s, hskip _ (hcreate_exists s), ?_⟩
  intro hzero
  have habsent : collection_exists s QDRANT_COLLECTION_NAME = false := by
    unfold countNamed at hzero
    rw [List.length_eq_zero] at hzero
    unfold collection_exists
    rw [List.any_eq_false]
    intro c hc
    simp only [decide_eq_true_eq]
    intro hname
    have : c ∈ s.collections.filter (fun c => c.name = QDRANT_COLLECTION_NAME) :=
      List.mem_filter.mpr ⟨hc, by simp [hname]⟩
    rw [hzero] at this
    exact absurd this (List.not_mem_nil c)
  have hone : assure_db_collection_exists s =
      create_collection s QDRANT_COLLECTION_NAME
        { size := EMBEDDING_DIM, distance := Distance.cosine } := by
    unfold assure_db_collection_exists
    rw [if_pos (by simp [habsent])]
  rw [hskip _ (hcreate_exists s), hone]
  constructor
  · unfold countNamed create_collection
    simp only [List.filter_append]
    rw [show s.collections.filter
        (fun c => decide (c.name = QDRANT_COLLECTION_NAME)) = [] from
      List.length_eq_zero.mp hzero]
    simp
  · intro c hc hname
    unfold create_collection at hc
    rcases List.mem_append.mp hc with hl | hr
    · exfalso
      have : c ∈ s.collections.filter (fun c => c.name = QDRANT_COLLECTION_NAME) :=
        List.mem_filter.mpr ⟨hl, by simp [hname]⟩
      rw [show s.collections.filter
          (fun c => decide (c.name = QDRANT_COLLECTION_NAME)) = [] from
        List.length_eq_zero.mp hzero] at this
      exact absurd this (List.not_mem_nil c)
    · rw [List.mem_singleton.mp hr]

/-- Witness for C5: the existing-collection case at the concrete store, and
the fresh-store case ending with exactly one "notes" collection. -/
theorem assure_collection_idempotent_witness :
    assure_db_collection_exists storeA = storeA ∧
    assure_db_collection_exists (assure_db_collection_exists initialStore) =
      assure_db_collection_exists initialStore ∧
    countNamed (assure_db_collection_exists
        (assure_db_collection_exists initialStore)).collections
      QDRANT_COLLECTION_NAME = 1 :=
  ⟨(assure_collection_idempotent storeA).1 (by decide),
   (assure_collection_idempotent initialStore).2.1,
   ((assure_collection_idempotent initialStore).2.2 (by decide)).1⟩

/-! ## Claim C6 — delete (modelled from the spec; absent from the source) -/

/-- Claim C6 (spec-modelled): after adding a note, deleting the assigned id
leaves no point with that id — neither in the store nor in any subsequent
list-all scroll — and deleting an id that no stored point carries is a
successful no-op (idempotent delete). -/
theorem delete_then_list_excludes (embed : String → Nat → List ℚ)
    (s : QdrantStore) (text : String) :
    ((delete_note_from_db (add_note_to_db embed s text)
        (qdrantCount s QDRANT_COLLECTION_NAME + 1)).points.all
      (fun p => p.id ≠ qdrantCount s QDRANT_COLLECTION_NAME + 1) = true) ∧
    ((qdrantScroll (delete_note_from_db (add_note_to_db embed s text)
        (qdrantCount s QDRANT_COLLECTION_NAME + 1)) QDRANT_COLLECTION_NAME 10).all
      (fun p => p.id ≠ qdrantCount s QDRANT_COLLECTION_NAME + 1) = true) ∧
    (∀ t : QdrantStore, ∀ id : Nat,
      t.points.all (fun p => p.id ≠ id) = true → delete_note_from_db t id = t) := by
  have hfilter : ∀ (pts : List PointStruct) (id : Nat),
      (pts.filter (fun p => p.id ≠ id)).all (fun p => p.id ≠ id) = true := by
    intro pts id
    rw [List.all_eq_true]
    intro p hp
    exact (List.mem_filter.mp hp).2
  refine ⟨hfilter _ _, ?_, ?_⟩
  · rw [List.all_eq_true]
    intro p hp
    have hmem : p ∈ (delete_note_from_db (add_note_to_db embed s text)
        (qdrantCount s QDRANT_COLLECTION_NAME + 1)).points :=
      (List.take_sublist 10 _).subset hp
    exact (List.mem_filter.mp hmem).2
  · intro t id ht
    unfold delete_note_from_db
    rw [List.filter_eq_self.mpr (List.all_eq_true.mp ht)]

/-- Witness for C6: deleting the freshly assigned id 3 from the concrete
store, and deleting the absent id 99 from `storeA` leaves `storeA`
unchanged. -/
theorem delete_then_list_excludes_witness :
    ((delete_note_from_db (add_note_to_db embed0 storeA "hello") 3).points.all
      (fun p => p.id ≠ 3) = true) ∧
    delete_note_from_db storeA 99 = storeA :=
  ⟨(delete_then_list_excludes embed0 storeA "hello").1,
   (delete_then_list_excludes embed0 storeA "hello").2.2 storeA 99 (by decide)⟩

/-! ## Claim C7 — result shape of the two listing paths -/

/-- Claim C7 (confirmed): every result of the list-all path of
`list_notes_from_db` carries `score = none`, and the search path returns
exactly the store's hits with `score` populated from each hit's score; both
paths produce the same `NoteResult` shape, distinguished only by the score
field. -/
theorem list_vs_search_scores (sim : List ℚ → List ℚ → ℚ)
    (embed : String → Nat → List ℚ) (s : QdrantStore) :
    (∀ x ∈ (list_notes_from_db sim embed s none).1, x.score = none) ∧
    (∀ x ∈ (list_notes_from_db sim embed s (some "")).1, x.score = none) ∧
    (∀ q : String, q ≠ "" →
      (list_notes_from_db sim embed s (some q)).1 =
        (qdrantSearch sim s QDRANT_COLLECTION_NAME (get_embedding embed q) 10).map
          (fun hit => { text := payloadText hit.point.payload,
                        score := some hit.score })) := by
  have hlist : ∀ query : Option String, pyTruthy query = false →
      ∀ x ∈ (list_notes_from_db sim embed s query).1, x.score = none := by
    intro query hquery x hx
    unfold list_notes_from_db at hx
    rw [if_pos hquery] at hx
    obtain ⟨note, _, hxe⟩ := List.mem_map.mp hx
    rw [← hxe]
  refine ⟨hlist none rfl, hlist (some "") rfl, ?_⟩
  intro q hq
  unfold list_notes_from_db
  rw [if_neg (by simp [pyTruthy, hq])]
  rfl

/-- Witness for C7: the search path at a concrete store and query. -/
theorem list_vs_search_scores_witness :
    (list_notes_from_db sim0 embedA storeA (some "milk")).1 =
      (qdrantSearch sim0 storeA QDRANT_COLLECTION_NAME
          (get_embedding embedA "milk") 10).map
        (fun hit => { text := payloadText hit.point.payload,
                      score := some hit.score }) :=
  (list_vs_search_scores sim0 embedA storeA).2.2 "milk" (by decide)

/-! ## Claim C9 — transcription error handling -/

/-- Claim C9 as stated is false: `transcribe_audio` has no exception handler,
so an erroring transcription call yields the error itself, not an empty
transcript. -/
theorem transcribe_error_counterexample :
    transcribe_audio (fun _ => Except.error "api error") [1, 2, 3] =
      Except.error "api error" ∧
    transcribe_audio (fun _ => Except.error "api error") [1, 2, 3] ≠
      Except.ok "" :=
  ⟨rfl, fun h => Except.noConfusion h⟩

/-- Claim C9 (amended): when the external transcription call errors,
`transcribe_audio` propagates that error to the caller unchanged; there is no
local recovery, no empty-transcript fallback and no warning in the
function. -/
theorem transcribe_error_propagates (create : List Nat → Except String Transcript)
    (audio_bytes : List Nat) (e : String)
    (h : create audio_bytes = Except.error e) :
    transcribe_audio create audio_bytes = Except.error e := by
  unfold transcribe_audio
  rw [h]

/-- Witness for C9 with a concretely failing provider. -/
theorem transcribe_error_propagates_witness :
    transcribe_audio (fun _ => Except.error "boom") [7] = Except.error "boom" :=
  transcribe_error_propagates (fun _ => Except.error "boom") [7] "boom" rfl

/-! ## Claim C10 — missing or empty query degrades to list-all -/

/-- Claim C10 (confirmed): calling `list_notes_from_db` with a missing
(`none`) or empty-string query takes the list-all path — no embedding is
computed, no similarity search is issued, the result is the first at most 10
scrolled notes, and every result's score is `none`. -/
theorem falsy_query_list_path (sim : List ℚ → List ℚ → ℚ)
    (embed : String → Nat → List ℚ) (s : QdrantStore) (q : Option String)
    (h : q = none ∨ q = some "") :
    (list_notes_from_db sim embed s q).2.embedCalls = 0 ∧
    (list_notes_from_db sim embed s q).2.searchCalls = 0 ∧
    (list_notes_from_db sim embed s q).1.length ≤ 10 ∧
    (list_notes_from_db sim embed s q).1 =
      (qdrantScroll s QDRANT_COLLECTION_NAME 10).map
        (fun note => { text := payloadText note.payload, score := none }) ∧
    ((list_notes_from_db sim embed s q).1.all
      (fun r => r.score = none) = true) := by
  have hq : pyTruthy q = false := by
    rcases h with h | h <;> rw [h] <;> rfl
  unfold list_notes_from_db
  rw [if_pos hq]
  refine ⟨rfl, rfl, ?_, rfl, ?_⟩
  · rw [List.length_map]
    unfold qdrantScroll
    exact List.length_take_le 10 _
  · rw [List.all_eq_true]
    intro r hr
    obtain ⟨note, _, hre⟩ := List.mem_map.mp hr
    rw [← hre]
    rfl

/-- Witness for C10 at both falsy query values. -/
theorem falsy_query_list_path_witness :
    (list_notes_from_db sim0 embedA storeA none).2.embedCalls = 0 ∧
    (list_notes_from_db sim0 embedA storeA (some "")).2.searchCalls = 0 :=
  ⟨(falsy_query_list_path sim0 embedA storeA none (Or.inl rfl)).1,
   (falsy_query_list_path sim0 embedA storeA (some "") (Or.inr rfl)).2.1⟩

/-! ## Claim C8 — embedding dimension invariant -/

theorem runOp_preserves_dim (embed : String → Nat → List ℚ)
    (hdim : ∀ t d, (embed t d).length = d) (s : QdrantStore)
    (hp : ∀ p ∈ s.points, p.vector.length = EMBEDDING_DIM)
    (hc : ∀ c ∈ s.collections, c.vectorParams.size = EMBEDDING_DIM)
    (op : Op) :
    (∀ p ∈ (runOp embed s op).points, p.vector.length = EMBEDDING_DIM) ∧
    (∀ c ∈ (runOp embed s op).collections,
      c.vectorParams.size = EMBEDDING_DIM) := by
  cases op with
  | add text =>
    refine ⟨?_, hc⟩
    intro p hpmem
    have hpmem2 : p ∈ upsertPoint s.points
        { id := qdrantCount s QDRANT_COLLECTION_NAME + 1,
          vector := get_embedding embed text,
          payload := [("text", PayloadValue.str text)] } := hpmem
    rcases mem_upsertPoint_elim _ _ _ hpmem2 with hold | hnew
    · exact hp p hold
    · rw [hnew]
      exact hdim text EMBEDDING_DIM
  | assure =>
    show (∀ p ∈ (assure_db_collection_exists s).points, _) ∧
      (∀ c ∈ (assure_db_collection_exists s).collections, _)
    unfold assure_db_collection_exists
    by_cases hex : collection_exists s QDRANT_COLLECTION_NAME = true
    · rw [if_neg (by simp [hex])]
      exact ⟨hp, hc⟩
    · rw [if_pos (by simpa using hex)]
      refine ⟨hp, ?_⟩
      intro c hcmem
      rcases List.mem_append.mp hcmem with hl | hr
      · exact hc c hl
      · rw [List.mem_singleton.mp hr]
  | delete id =>
    refine ⟨?_, hc⟩
    intro p hpmem
    exact hp p (List.mem_filter.mp hpmem).1

theorem foldl_preserves_dim (embed : String → Nat → List ℚ)
    (hdim : ∀ t d, (embed t d).length = d) (ops : List Op) (s : QdrantStore)
    (hp : ∀ p ∈ s.points, p.vector.length = EMBEDDING_DIM)
    (hc : ∀ c ∈ s.collections, c.vectorParams.size = EMBEDDING_DIM) :
    (∀ p ∈ (ops.foldl (runOp embed) s).points,
      p.vector.length = EMBEDDING_DIM) ∧
    (∀ c ∈ (ops.foldl (runOp embed) s).collections,
      c.vectorParams.size = EMBEDDING_DIM) := by
  induction ops generalizing s with
  | nil => exact ⟨hp, hc⟩
  | cons op rest ih =>
    have hstep := runOp_preserves_dim embed hdim s hp hc op
    exact ih (runOp embed s op) hstep.1 hstep.2

/-- Claim C8 (confirmed): assuming the embedding provider honours its
contract (the returned vector has exactly the requested dimension), every
point in any store reachable from the fresh store by the app's operations has
a vector of exactly `EMBEDDING_DIM = 3072` components, every collection the
app creates is configured with that same vector size, and `get_embedding`
always requests exactly that dimension. -/
theorem embedding_dim_invariant (embed : String → Nat → List ℚ)
    (hdim : ∀ t d, (embed t d).length = d) (ops : List Op) :
    (∀ p ∈ (run embed ops).points, p.vector.length = EMBEDDING_DIM) ∧
    (∀ c ∈ (run embed ops).collections,
      c.vectorParams.size = EMBEDDING_DIM) ∧
    (∀ t : String, (get_embedding embed t).length = EMBEDDING_DIM) := by
  have hbase := foldl_preserves_dim embed hdim ops initialStore
    (by intro p hp; exact absurd hp (List.not_mem_nil p))
    (by intro c hc; exact absurd hc (List.not_mem_nil c))
  exact ⟨hbase.1, hbase.2, fun t => hdim t EMBEDDING_DIM⟩

/-- Witness for C8: a contract-honouring provider, and a concrete run
(bootstrap, then add "hi") whose single stored point has a 3072-component
vector. -/
theorem embedding_dim_invariant_witness :
    ((run embed0 [Op.assure, Op.add "hi"]).points.map
      (fun p => p.vector.length)) = [EMBEDDING_DIM] := by
  have hdim : ∀ t d, (embed0 t d).length = d := by
    intro t d
    simp [embed0]
  have h := (embedding_dim_invariant embed0 hdim [Op.assure, Op.add "hi"]).1
  have hpts : (run embed0 [Op.assure, Op.add "hi"]).points = [runPoint0] := rfl
  rw [hpts] at h ⊢
  rw [List.map_cons, List.map_nil, h runPoint0 (List.mem_singleton.mpr rfl)]
